import Mathlib

/-!
Verification development for the island-sim repository.

This file shallowly embeds the data model and the operations of the
simulation engine (src/server/types.ts, src/server/agent.ts, the action
resolvers of src/server/tools.ts as bundled into toolSchemas.ts, and the
tick/event-log logic of src/server/simulation.ts), and proves or refutes
the frozen behavioural claims about them.

Modelling conventions:
* JavaScript numbers holding counts, ticks and coordinates are modelled as
  `Int`; the JS `%` operator (truncated remainder) is `Int.tmod`.
* The seeded RNG (`SeededRandom.random`, mulberry32) is abstracted as
  explicit draw parameters in `[0,1)` of type `ℚ`; event ids produced by
  `Simulation.generateEventId` from that RNG are abstracted as explicit
  `String` / `Nat → String` supply parameters.
* The unseeded id sources in the resolvers (`Date.now()` combined with
  `Math.random()` in `handleCommunicate` and `handleBuild`) are likewise
  passed in explicitly; two real runs generally disagree on them.
* TS `undefined` / optional fields become `Option`; JS falsiness checks on
  strings and optional values are modelled field by field where the source
  relies on them.
* `Agent.personality` and `Agent.conversationHistory` are never read or
  written by any operation embedded here and are omitted from the record.
-/

/-- Gender type for agents (types.ts `Gender`). -/
inductive Gender where
  | male
  | female
deriving DecidableEq, Repr

/-- Agent lifecycle status (types.ts `AgentStatus`). -/
inductive AgentStatus where
  | child
  | adult
  | elder
  | dead
deriving DecidableEq, Repr

/-- Resource kinds (types.ts `ResourceType`). -/
inductive ResourceType where
  | wood
  | stone
  | water
  | food
  | tools
deriving DecidableEq, Repr

/-- Inventory mapping resource type to quantity (types.ts `Inventory`). -/
structure Inventory where
  wood : Int
  stone : Int
  water : Int
  food : Int
  tools : Int
deriving DecidableEq, Repr

/-- Read one inventory field. -/
def Inventory.get (i : Inventory) : ResourceType → Int
  | .wood => i.wood
  | .stone => i.stone
  | .water => i.water
  | .food => i.food
  | .tools => i.tools

/-- Write one inventory field. -/
def Inventory.set (i : Inventory) : ResourceType → Int → Inventory
  | .wood, v => { i with wood := v }
  | .stone, v => { i with stone := v }
  | .water, v => { i with water := v }
  | .food, v => { i with food := v }
  | .tools, v => { i with tools := v }

/-- The all-zero inventory (`{ wood: 0, stone: 0, water: 0, food: 0, tools: 0 }`). -/
def zeroInventory : Inventory := ⟨0, 0, 0, 0, 0⟩

/-- `Partial<Inventory>` of a tile (types.ts `Tile.resources`): each key may be absent. -/
structure TileResources where
  wood : Option Int
  stone : Option Int
  water : Option Int
  food : Option Int
  tools : Option Int
deriving DecidableEq, Repr

/-- Read one (possibly absent) tile resource. -/
def TileResources.get (r : TileResources) : ResourceType → Option Int
  | .wood => r.wood
  | .stone => r.stone
  | .water => r.water
  | .food => r.food
  | .tools => r.tools

/-- Write one tile resource key. -/
def TileResources.set (r : TileResources) : ResourceType → Option Int → TileResources
  | .wood, v => { r with wood := v }
  | .stone, v => { r with stone := v }
  | .water, v => { r with water := v }
  | .food, v => { r with food := v }
  | .tools, v => { r with tools := v }

/-- Relationship entry (types.ts `Relationship`); the `type` is one of the
strings `trust`, `friendship`, `rivalry`. -/
structure Relationship where
  agentId : String
  type : String
  value : Int
  notes : String
deriving DecidableEq, Repr

/-- Agent memory entry (types.ts `MemoryEntry`, required fields). -/
structure MemoryEntry where
  tick : Int
  eventId : String
  description : String
deriving DecidableEq, Repr

/-- Pregnancy record (types.ts `Agent.pregnancy`). -/
structure Pregnancy where
  startTick : Int
  duration : Int
  partnerId : String
deriving DecidableEq, Repr

/-- Agent record (types.ts `Agent`); `location` is flattened into `locX`/`locY`,
and the fields never touched by the embedded operations are omitted. -/
structure Agent where
  id : String
  name : String
  gender : Gender
  age : Int
  status : AgentStatus
  happiness : Int
  memory : List MemoryEntry
  relationships : List Relationship
  inventory : Inventory
  mealsEaten : Int
  lastMealTick : Int
  starving : Bool
  alive : Bool
  pregnancy : Option Pregnancy
  locX : Int
  locY : Int
  visibilityRadius : Int
deriving DecidableEq, Repr

/-- Crop field state (types.ts `CropField`). -/
structure CropField where
  id : String
  locX : Int
  locY : Int
  plantedTick : Int
  watered : Int
  matureTick : Int
  harvested : Bool
deriving DecidableEq, Repr

/-- A built structure (types.ts `Structure`); `type` is one of the strings
`shelter`, `fence`, `workbench`, `storage`. -/
structure BuiltStructure where
  id : String
  type : String
  locX : Int
  locY : Int
  durability : Int
  builtBy : String
deriving DecidableEq, Repr

/-- Terrain category (types.ts `TerrainType`). -/
inductive Terrain where
  | beach
  | forest
  | rocky
  | water
  | grass
deriving DecidableEq, Repr

/-- Map tile (types.ts `Tile`); `elevation` is kept abstractly as `Int` and
`resourceLimits` is omitted (never read by the embedded operations). -/
structure Tile where
  x : Int
  y : Int
  elevation : Int
  terrain : Terrain
  resources : TileResources
  cropField : Option CropField
  structure' : Option BuiltStructure
deriving DecidableEq, Repr

/-- A dropped item pile (types.ts `World.droppedItems` entries). -/
structure DroppedItem where
  locX : Int
  locY : Int
  inventory : Inventory
deriving DecidableEq, Repr

/-- Weather state (types.ts `WeatherState`). -/
inductive Weather where
  | rain
  | sun
deriving DecidableEq, Repr

/-- World state (types.ts `World`); `dayNight` is `true` for day. -/
structure World where
  map : List (List Tile)
  agents : List Agent
  droppedItems : List DroppedItem
  weather : Weather
  time : Int
  dayNightIsDay : Bool
deriving DecidableEq, Repr

/-- Event record (types.ts `Event`); `type` is the TS string-literal union and
`details` is the free-form payload, modelled as string key/value pairs. -/
structure Event where
  id : String
  type : String
  tick : Int
  agentsInvolved : List String
  details : List (String × String)
  parentEventId : Option String
deriving DecidableEq, Repr

/-- A default event, used only as the fallback of `List.getD` in statements. -/
def defaultEvent : Event := ⟨"", "", 0, [], [], none⟩

/-- Simulation configuration (simulation.ts `SimulationConfig`); the optional
`llm` connection field is omitted (the decision source is external). -/
structure SimulationConfig where
  tickDurationMs : Int
  mapSize : Int
  childDuration : Int
  pregnancyDuration : Int
  cropGrowthTime : Int
  cropWateringRequired : Int
  agentMovePerTick : Int
  mealsPerDay : Int
  visibilityRadius : Int
  seed : Int
deriving DecidableEq, Repr

/-- `world.map[y]?.[x]` — JS array indexing with out-of-range and negative
indices yielding `undefined`. -/
def tileAt (w : World) (x y : Int) : Option Tile :=
  if y < 0 ∨ x < 0 then none
  else match w.map.get? y.toNat with
    | none => none
    | some row => row.get? x.toNat

/-- Replace the tile at `(x, y)` in the grid (the in-place tile mutation the
resolvers perform through the shared reference). -/
def setTileAt (w : World) (x y : Int) (t : Tile) : World :=
  if y < 0 ∨ x < 0 then w
  else match w.map.get? y.toNat with
    | none => w
    | some row => { w with map := w.map.set y.toNat (row.set x.toNat t) }

/-! ## Agent model (src/server/agent.ts) -/

/-- `tickAgent(agent, childDuration, elderAge, random)` (agent.ts): age by one
tick, apply status transitions, and kill an elder when the RNG draw `r` falls
below the 1% threshold.  `r` is the value `random()` would return. -/
def tickAgent (a : Agent) (childDuration elderAge : Int) (r : ℚ) : Agent :=
  if a.alive = false then a
  else
    let newAge := a.age + 1
    let status1 := if a.status = .child ∧ newAge ≥ childDuration then .adult else a.status
    let status2 := if status1 = .adult ∧ newAge ≥ elderAge then .elder else status1
    let alive := if status2 = .elder ∧ r < 1 / 100 then false else a.alive
    { a with age := newAge, status := status2, alive := alive }

/-- `generateRelationshipNote(otherName, type, value)` (agent.ts). -/
def generateRelationshipNote (otherName : String) (type : String) (value : Int) : String :=
  if type = "trust" then
    if value > 20 then otherName ++ " is very trustworthy"
    else if value > 10 then otherName ++ " seems reliable"
    else if value > 0 then otherName ++ " is somewhat trustworthy"
    else if value < -10 then otherName ++ " cannot be trusted"
    else "Neutral feelings about " ++ otherName
  else if type = "friendship" then
    if value > 20 then otherName ++ " is a close friend"
    else if value > 10 then otherName ++ " is a good friend"
    else if value > 0 then otherName ++ " is friendly"
    else "Neutral friendship with " ++ otherName
  else if type = "rivalry" then
    if value > 10 then "Strong rivalry with " ++ otherName
    else if value > 0 then "Some competition with " ++ otherName
    else "No rivalry with " ++ otherName
  else "Relationship with " ++ otherName

/-- `updateRelationship(agent, rel)` (agent.ts): drop any existing relationship
with the same agent id and append the new one. -/
def updateRelationship (a : Agent) (rel : Relationship) : Agent :=
  { a with relationships :=
      (a.relationships.filter (fun r => r.agentId ≠ rel.agentId)) ++ [rel] }

/-- `updateRelationshipEvent(agent, otherId, otherName, eventType)` (agent.ts).
The fourth parameter is optional at the JS level: the resolvers in tools.ts
invoke this function with only three arguments, so `eventType` arrives as
`undefined` there — modelled as `none`. -/
def updateRelationshipEvent (a : Agent) (otherId otherName : String)
    (eventType : Option String) : Agent :=
  let delta : Int :=
    if eventType = some "communicate" then 2
    else if eventType = some "give" then 3
    else if eventType = some "procreate" then 5
    else if eventType = some "steal" ∨ eventType = some "attack" then -5
    else 0
  let prev := a.relationships.find? (fun r => r.agentId = otherId)
  let newValue := (match prev with | some r => r.value | none => 0) + delta
  let relType := match prev with | some r => r.type | none => "trust"
  updateRelationship a
    ⟨otherId, relType, newValue, generateRelationshipNote otherName relType newValue⟩

/-- `updateHappinessEvent(agent, eventType)` (agent.ts): fixed delta table,
clamped to `[0, 100]`. -/
def updateHappinessEvent (a : Agent) (eventType : String) : Agent :=
  let delta : Int :=
    if eventType = "communicate" then 2
    else if eventType = "give" then 3
    else if eventType = "procreate" then 5
    else if eventType = "starve" then -10
    else if eventType = "death" then -20
    else 0
  { a with happiness := max 0 (min 100 (a.happiness + delta)) }

/-! ## Action resolvers (src/server/tools.ts, bundled into toolSchemas.ts) -/

/-- Update the first element of the list satisfying `p` (this is what the JS
in-place mutation through the object returned by `Array.prototype.find`
amounts to). -/
def updateFirst (p : Agent → Bool) (f : Agent → Agent) : List Agent → List Agent
  | [] => []
  | a :: as => if p a then f a :: as else a :: updateFirst p f as

/-- `GiveResourceToolCall` (tools.ts). -/
structure GiveResourceToolCall where
  fromAgentId : String
  toAgentId : String
  resource : ResourceType
  amount : Int
deriving DecidableEq, Repr

/-- `handleGiveResource(world, call)` (tools.ts): no-op when either agent is
missing or the giver's count is below `amount`; otherwise move the amount and
apply relationship/happiness updates to both parties.  The relationship update
is the source's three-argument call `updateRelationshipEvent(agent, id, 'give')`,
so `otherName` is the string `give` and `eventType` is `undefined`. -/
def handleGiveResource (w : World) (c : GiveResourceToolCall) : World :=
  match w.agents.find? (fun a => a.id = c.fromAgentId),
        w.agents.find? (fun a => a.id = c.toAgentId) with
  | some fromA, some toA =>
    if fromA.inventory.get c.resource < c.amount then w
    else
      let agents1 := updateFirst (fun a => a.id = c.fromAgentId)
        (fun a => { a with inventory := a.inventory.set c.resource (a.inventory.get c.resource - c.amount) })
        w.agents
      let agents2 := updateFirst (fun a => a.id = c.toAgentId)
        (fun a => { a with inventory := a.inventory.set c.resource (a.inventory.get c.resource + c.amount) })
        agents1
      let newAgents := agents2.map (fun agent =>
        if agent.id = fromA.id then
          updateHappinessEvent (updateRelationshipEvent agent toA.id "give" none) "give"
        else if agent.id = toA.id then
          updateHappinessEvent (updateRelationshipEvent agent fromA.id "give" none) "give"
        else agent)
      { w with agents := newAgents }
  | _, _ => w

/-- `GatherToolCall` (tools.ts). -/
structure GatherToolCall where
  agentId : String
  resource : ResourceType
  locX : Int
  locY : Int
deriving DecidableEq, Repr

/-- `handleGather(world, call)` (tools.ts): no-op when the tile is missing or
`tile.resources[resource]` is falsy (absent or `0`); otherwise add one unit to
the agent's inventory, decrement the tile count and delete the key when the
count reaches `0` or below. -/
def handleGather (w : World) (c : GatherToolCall) : World :=
  match tileAt w c.locX c.locY with
  | none => w
  | some tile =>
    match tile.resources.get c.resource with
    | none => w
    | some v =>
      if v = 0 then w
      else
        let agents := w.agents.map (fun a =>
          if a.id = c.agentId then
            { a with inventory := a.inventory.set c.resource (a.inventory.get c.resource + 1) }
          else a)
        let v' := v - 1
        let newRes := if v' ≤ 0 then tile.resources.set c.resource none
                      else tile.resources.set c.resource (some v')
        let w' := setTileAt w c.locX c.locY { tile with resources := newRes }
        { w' with agents := agents }

/-- Crafting recipe names (toolSchemas.ts `RecipeType`). -/
inductive RecipeType where
  | wooden_tool
  | stone_tool
  | wooden_pickaxe
  | stone_pickaxe
deriving DecidableEq, Repr

/-- `RECIPES` (tools.ts): ingredient and output bundles, as entry lists in the
source's key order. -/
def RECIPES (r : RecipeType) : List (ResourceType × Int) × List (ResourceType × Int) :=
  match r with
  | .wooden_tool => ([(.wood, 2)], [(.tools, 1)])
  | .stone_tool => ([(.stone, 2), (.wood, 1)], [(.tools, 1)])
  | .wooden_pickaxe => ([(.wood, 5), (.tools, 1)], [(.tools, 2)])
  | .stone_pickaxe => ([(.stone, 5), (.wood, 3), (.tools, 1)], [(.tools, 3)])

/-- `CraftToolCall` (tools.ts). -/
structure CraftToolCall where
  agentId : String
  recipe : RecipeType
deriving DecidableEq, Repr

/-- `handleCraft(world, call)` (tools.ts): no-op when the agent is missing,
dead, or lacks an ingredient; otherwise deduct the ingredients, add the
outputs, and give every agent with this id the updated inventory. -/
def handleCraft (w : World) (c : CraftToolCall) : World :=
  match w.agents.find? (fun a => a.id = c.agentId) with
  | none => w
  | some agent =>
    if agent.alive = false then w
    else
      let recipe := RECIPES c.recipe
      if recipe.1.all (fun rn => rn.2 ≤ agent.inventory.get rn.1) then
        let afterDeduct := recipe.1.foldl
          (fun inv rn => inv.set rn.1 (inv.get rn.1 - rn.2)) agent.inventory
        let updatedInventory := recipe.2.foldl
          (fun inv rn => inv.set rn.1 (inv.get rn.1 + rn.2)) afterDeduct
        { w with agents := w.agents.map (fun a =>
            if a.id = agent.id then { a with inventory := updatedInventory } else a) }
      else w

/-- `STRUCTURE_RECIPES` (tools.ts), keyed by the structure-type string. -/
def STRUCTURE_RECIPES (t : String) : Option (List (ResourceType × Int)) :=
  if t = "shelter" then some [(.wood, 10), (.stone, 5)]
  else if t = "fence" then some [(.wood, 3)]
  else if t = "workbench" then some [(.wood, 5), (.stone, 2)]
  else if t = "storage" then some [(.wood, 8)]
  else none

/-- `BuildToolCall` (tools.ts). -/
structure BuildToolCall where
  agentId : String
  structureType : String
  locX : Int
  locY : Int
deriving DecidableEq, Repr

/-- `handleBuild(world, call)` (tools.ts): no-op when the agent or tile is
missing, the agent is dead, the tile already has a structure, or resources are
insufficient; otherwise deduct the bundle and place the structure.  The
structure id in the source is `structure_${Date.now()}_${Math.random()...}` —
an unseeded, wall-clock-dependent value, passed here as `sid`. -/
def handleBuild (w : World) (c : BuildToolCall) (sid : String) : World :=
  match w.agents.find? (fun a => a.id = c.agentId), tileAt w c.locX c.locY with
  | some agent, some tile =>
    if agent.alive = false then w
    else if tile.structure'.isSome then w
    else
      match STRUCTURE_RECIPES c.structureType with
      | none => w
      | some recipe =>
        if recipe.all (fun rn => rn.2 ≤ agent.inventory.get rn.1) then
          let updatedInventory := recipe.foldl
            (fun inv rn => inv.set rn.1 (inv.get rn.1 - rn.2)) agent.inventory
          let st : BuiltStructure := ⟨sid, c.structureType, c.locX, c.locY, 100, agent.id⟩
          let w' := setTileAt w c.locX c.locY { tile with structure' := some st }
          { w' with agents := w.agents.map (fun a =>
              if a.id = agent.id then { a with inventory := updatedInventory } else a) }
        else w
  | _, _ => w

/-- `HarvestCropToolCall` (tools.ts). -/
structure HarvestCropToolCall where
  agentId : String
  locX : Int
  locY : Int
deriving DecidableEq, Repr

/-- `handleHarvestCrop(world, call, tick, cropWateringRequired)` (tools.ts):
no-op when the tile or field is missing, the field is already harvested, the
tick is before maturity, or the watering requirement is unmet; otherwise give
every agent with the calling id two food and mark the field harvested. -/
def handleHarvestCrop (w : World) (c : HarvestCropToolCall)
    (tick cropWateringRequired : Int) : World :=
  match tileAt w c.locX c.locY with
  | none => w
  | some tile =>
    match tile.cropField with
    | none => w
    | some field =>
      if field.harvested then w
      else if tick < field.matureTick ∨ field.watered < cropWateringRequired then w
      else
        let agents := w.agents.map (fun a =>
          if a.id = c.agentId then
            { a with inventory := { a.inventory with food := a.inventory.food + 2 } }
          else a)
        let w' := setTileAt w c.locX c.locY
          { tile with cropField := some { field with harvested := true } }
        { w' with agents := agents }

/-- `CommunicateToolCall` (tools.ts). -/
structure CommunicateToolCall where
  agentId : String
  message : String
  recipients : List String
deriving DecidableEq, Repr

/-- The agents-array map of `handleCommunicate`, threading the counter `k` of
fresh chat-memory ids: each sender/recipient branch evaluates
`chat_${Date.now()}_${Math.random()...}` once, modelled as `fresh k`. -/
def communicateMap (sender : Agent) (validRecipients : List Agent)
    (message : String) (time : Int) (fresh : Nat → String) :
    List Agent → Nat → List Agent
  | [], _ => []
  | a :: as, k =>
    if a.id = sender.id then
      let updated := validRecipients.foldl
        (fun acc rec' => updateRelationshipEvent acc rec'.id "communicate" none) a
      let updated := updateHappinessEvent updated "communicate"
      { updated with memory := updated.memory ++
          [⟨time, fresh k, "[CHAT] " ++ sender.name ++ ": " ++ message⟩] }
        :: communicateMap sender validRecipients message time fresh as (k + 1)
    else if validRecipients.any (fun r => r.id = a.id) then
      let updated := updateHappinessEvent
        (updateRelationshipEvent a sender.id "communicate" none) "communicate"
      { updated with memory := updated.memory ++
          [⟨time, fresh k, "[CHAT] " ++ sender.name ++ ": " ++ message⟩] }
        :: communicateMap sender validRecipients message time fresh as (k + 1)
    else a :: communicateMap sender validRecipients message time fresh as k

/-- `handleCommunicate(world, call)` (tools.ts): filter recipients to alive
agents within the sender's visibility radius, then update memory, happiness
and relationships for sender and valid recipients.  The memory event ids in
the source are `chat_${Date.now()}_${Math.random()...}` — unseeded and
wall-clock-dependent — supplied here by `fresh`. -/
def handleCommunicate (w : World) (c : CommunicateToolCall) (fresh : Nat → String) : World :=
  match w.agents.find? (fun a => a.id = c.agentId) with
  | none => w
  | some sender =>
    if sender.alive = false then w
    else
      let validRecipients := w.agents.filter (fun a =>
        c.recipients.contains a.id ∧ a.id ≠ sender.id ∧ a.alive ∧
        |a.locX - sender.locX| ≤ sender.visibilityRadius ∧
        |a.locY - sender.locY| ≤ sender.visibilityRadius)
      { w with agents := communicateMap sender validRecipients c.message w.time fresh w.agents 0 }

/-! ## Event log and snapshot store (src/server/simulation.ts) -/

/-- JS falsiness of `event.parentEventId`: `undefined` or the empty string. -/
def parentUnset (e : Event) : Bool :=
  match e.parentEventId with
  | none => true
  | some s => s = ""

/-- The event-log part of `Simulation.logEvent(event)`: when the parent id is
falsy and the log is non-empty, assign the id of the most recently appended
event, then append. -/
def appendEvent (log : List Event) (e : Event) : List Event :=
  let e' :=
    if parentUnset e then
      match log.getLast? with
      | some lastE => { e with parentEventId := some lastE.id }
      | none => e
    else e
  log ++ [e']

/-- Fold a list of submitted events through `appendEvent`, starting from the
empty log: the log an engine run accumulates. -/
def buildLog (subs : List Event) : List Event :=
  subs.foldl appendEvent []

/-- The mutable parts of `Simulation` that the event-log/snapshot claims are
about: the current world, the event log, and the per-event-id world snapshots.
Snapshots are an id-keyed store (`Record<string, World>`); assignment shadows
any earlier binding of the same key, so the store is modelled newest-first. -/
structure SimState where
  world : World
  eventLog : List Event
  snapshots : List (String × World)
deriving DecidableEq, Repr

/-- Look an id up in the snapshot store (newest binding wins, as for a JS
record that is overwritten in place). -/
def lookupSnapshot (s : List (String × World)) (eid : String) : Option World :=
  match s.find? (fun p => p.1 = eid) with
  | some p => some p.2
  | none => none

/-- `Simulation.logEvent(event)`: append to the log (assigning the parent id
when unset) and store a deep copy of the current world keyed by the event's
id.  The deep copy (`JSON.parse(JSON.stringify(world))`) is the identity under
value semantics.  The event's own id is never modified. -/
def logEventS (st : SimState) (e : Event) : SimState :=
  { st with
    eventLog := appendEvent st.eventLog e,
    snapshots := (e.id, st.world) :: st.snapshots }

/-- `Simulation.stepToEvent(eventId)`: restore the world from the snapshot for
that id when one exists; the event log is untouched. -/
def stepToEvent (st : SimState) (eid : String) : SimState :=
  match lookupSnapshot st.snapshots eid with
  | some w => { st with world := w }
  | none => st

/-- `Simulation.jumpToEvent(eventId)` simply delegates to `stepToEvent`. -/
def jumpToEvent (st : SimState) (eid : String) : SimState :=
  stepToEvent st eid

/-- One engine-side operation between two points of a run, as far as the
snapshot claims are concerned: either the tick pipeline mutates the current
world, or an event is logged. -/
inductive SimOp where
  | mutate (w : World)
  | log (e : Event)
deriving DecidableEq, Repr

/-- Apply one `SimOp`. -/
def applySimOp (st : SimState) : SimOp → SimState
  | .mutate w => { st with world := w }
  | .log e => logEventS st e

/-- Apply a sequence of `SimOp`s in order. -/
def applySimOps (st : SimState) (ops : List SimOp) : SimState :=
  ops.foldl applySimOp st

/-! ## The per-agent phases of `Simulation.tick` (src/server/simulation.ts)

`tick` maps every agent of the shuffled list through a pipeline: aging and
lifecycle events (lines 133-173), nutrition and starvation (lines 175-220),
procreation (lines 222-253) and birth (lines 255-296).  Each phase below is
that block of the source.  Event ids come from the seeded
`generateEventId`; they are abstracted as an id supply `ids : Nat → String`
(position `k` in this agent's emission order is `ids k`). -/

/-- Result of running one agent through the per-agent pipeline of `tick`:
the updated agent, the events logged for it, the item piles pushed onto
`world.droppedItems`, and the children pushed onto `world.agents`. -/
structure AgentStepResult where
  agent : Agent
  events : List Event
  dropped : List DroppedItem
  children : List Agent
deriving DecidableEq, Repr

/-- Render an `AgentStatus` as its TS string. -/
def AgentStatus.str : AgentStatus → String
  | .child => "child"
  | .adult => "adult"
  | .elder => "elder"
  | .dead => "dead"

/-- `Object.values(inventory).some(qty => qty > 0)` — the guard of the
inventory drop on death (simulation.ts line 151). -/
def invHasItems (i : Inventory) : Prop :=
  0 < i.wood ∨ 0 < i.stone ∨ 0 < i.water ∨ 0 < i.food ∨ 0 < i.tools

instance (i : Inventory) : Decidable (invHasItems i) := by
  unfold invHasItems; infer_instance

/-- Lifecycle block of `tick` (simulation.ts lines 133-173): run `tickAgent`
with `elderAge = childDuration + 2000`, log a transition event on a status
change (type `birth` when the new status is `adult`, else `death`), and on a
newly dead agent holding any positive count drop the whole inventory as a pile
with a `resource_drop` event and zero it; every newly dead agent gets a
`death` event with reason `elderly`.  `r` is the elder-mortality RNG draw;
the event `details` payloads of the drop event (location and inventory) are
carried by the pile component here. -/
def lifecyclePhase (cfg : SimulationConfig) (time : Int) (ids : Nat → String)
    (r : ℚ) (agent : Agent) : Agent × List Event × List DroppedItem :=
  let updated := tickAgent agent cfg.childDuration (cfg.childDuration + 2000) r
  let transitionEvents :=
    if agent.status ≠ updated.status then
      [⟨ids 0, if updated.status = .adult then "birth" else "death", time, [updated.id],
        [("from", agent.status.str), ("to", updated.status.str)], none⟩]
    else []
  if agent.alive ∧ updated.alive = false then
    if invHasItems updated.inventory then
      ({ updated with inventory := zeroInventory },
       transitionEvents ++ [⟨ids 1, "resource_drop", time, [updated.id], [], none⟩] ++
         [⟨ids 2, "death", time, [updated.id], [("reason", "elderly")], none⟩],
       [⟨updated.locX, updated.locY, updated.inventory⟩])
    else
      (updated,
       transitionEvents ++ [⟨ids 2, "death", time, [updated.id], [("reason", "elderly")], none⟩],
       [])
  else (updated, transitionEvents, [])

/-- Nutrition/starvation block of `tick` (simulation.ts lines 175-220): eat
one food when available and not already eaten this exact tick; at the last
tick of a 24-tick day compare meals eaten against the requirement (dying with
a `death` event of reason `starvation` when already starving, else marking
starving; clearing starving when fed); reset the meal counter on the first
tick of a day.  `eid` is the id the death event would receive. -/
def nutritionPhase (a : Agent) (time mealsPerDay : Int) (eid : String) :
    Agent × List Event :=
  let a1 :=
    if 0 < a.inventory.food ∧ a.lastMealTick ≠ time then
      { a with inventory := { a.inventory with food := a.inventory.food - 1 },
               mealsEaten := a.mealsEaten + 1,
               lastMealTick := time }
    else a
  let isEndOfDay := Int.tmod time 24 = 23
  let (alive, events) :=
    if isEndOfDay then
      if a1.mealsEaten < mealsPerDay then
        if a1.starving then
          (false,
           [(⟨eid, "death", time, [a1.id],
              [("reason", "starvation"), ("mealsEaten", toString a1.mealsEaten)], none⟩ : Event)])
        else (a1.alive, [])
      else (a1.alive, [])
    else (a1.alive, [])
  let a2 :=
    if isEndOfDay ∧ a1.mealsEaten < mealsPerDay ∧ a1.starving = false then
      { a1 with starving := true }
    else if isEndOfDay ∧ mealsPerDay ≤ a1.mealsEaten then
      { a1 with starving := false }
    else a1
  let a3 := if Int.tmod time 24 = 0 then { a2 with mealsEaten := 0 } else a2
  ({ a3 with alive := alive }, events)

/-- The partner filter of the procreation block (simulation.ts lines 229-237):
a different agent that is an adult male at the same location with no pregnancy
record.  The source checks neither partner's `alive` flag. -/
def isPartnerFor (a : Agent) (p : Agent) : Bool :=
  p.id ≠ a.id ∧ p.status = .adult ∧ p.gender = .male ∧
  p.locX = a.locX ∧ p.locY = a.locY ∧ p.pregnancy = none

/-- Procreation block of `tick` (simulation.ts lines 222-253): when the agent
is an adult female with no pregnancy record and a partner exists among
`worldAgents`, start a pregnancy (start tick now, configured duration, partner
= the first match) and log a `procreate` event naming both.  The agent's own
`alive` flag is not consulted. -/
def procreationPhase (cfg : SimulationConfig) (time : Int) (eid : String)
    (a : Agent) (worldAgents : List Agent) : Agent × List Event :=
  if a.status = .adult ∧ a.pregnancy = none ∧ a.gender = .female then
    match worldAgents.filter (isPartnerFor a) with
    | [] => (a, [])
    | p :: _ =>
      ({ a with pregnancy := some ⟨time, cfg.pregnancyDuration, p.id⟩ },
       [⟨eid, "procreate", time, [a.id, p.id], [], none⟩])
  else (a, [])

/-- Birth block of `tick` (simulation.ts lines 255-296): when a pregnancy has
reached its duration, push a newborn child at the mother's location and log a
`birth` event naming mother and child; the pregnancy is cleared.  The child id
is `generateEventId('child')` and its gender comes from a seeded draw `g`
(`randomBoolean(0.5)`, male when the draw is below one half). -/
def birthPhase (time : Int) (childId eid : String) (g : ℚ) (a : Agent) :
    Agent × List Event × List Agent :=
  match a.pregnancy with
  | some preg =>
    if preg.duration ≤ time - preg.startTick then
      let child : Agent :=
        { id := childId, name := childId,
          gender := if g < 1/2 then .male else .female,
          age := 0, status := .child, happiness := 100,
          memory := [], relationships := [],
          inventory := zeroInventory,
          mealsEaten := 0, lastMealTick := time, starving := false, alive := true,
          pregnancy := none,
          locX := a.locX, locY := a.locY,
          visibilityRadius := a.visibilityRadius }
      ({ a with pregnancy := none },
       [⟨eid, "birth", time, [a.id, childId], [], none⟩],
       [child])
    else (a, [], [])
  | none => (a, [], [])

/-- The whole per-agent pipeline of `tick` for one agent (simulation.ts lines
133-298): lifecycle, nutrition, procreation, birth, in that order.
`worldAgents` is `newWorld.agents` as the procreation block reads it — the
pre-tick agent records (plus any children already pushed this tick).  The RNG
draws are `r` (elder mortality) and `g` (child gender); `ids` supplies the
seeded event/child ids. -/
def agentTickStep (cfg : SimulationConfig) (time : Int) (ids : Nat → String)
    (r g : ℚ) (worldAgents : List Agent) (agent : Agent) : AgentStepResult :=
  let l := lifecyclePhase cfg time ids r agent
  let n := nutritionPhase l.1 time cfg.mealsPerDay (ids 3)
  let p := procreationPhase cfg time (ids 4) n.1 worldAgents
  let b := birthPhase time (ids 5) (ids 6) g p.1
  ⟨b.1, l.2.1 ++ n.2 ++ p.2 ++ b.2.1, l.2.2, b.2.2⟩

/-! ## Non-negativity predicates and concrete fixtures -/

/-- All five counts of an inventory are non-negative. -/
def InvNonneg (i : Inventory) : Prop :=
  0 ≤ i.wood ∧ 0 ≤ i.stone ∧ 0 ≤ i.water ∧ 0 ≤ i.food ∧ 0 ≤ i.tools

instance (i : Inventory) : Decidable (InvNonneg i) := by
  unfold InvNonneg; infer_instance

/-- A present tile-resource count is non-negative. -/
def optNonneg : Option Int → Prop
  | none => True
  | some v => 0 ≤ v

instance (o : Option Int) : Decidable (optNonneg o) := by
  cases o <;> unfold optNonneg <;> infer_instance

/-- All present resource counts of a tile are non-negative. -/
def ResNonneg (r : TileResources) : Prop :=
  optNonneg r.wood ∧ optNonneg r.stone ∧ optNonneg r.water ∧
    optNonneg r.food ∧ optNonneg r.tools

instance (r : TileResources) : Decidable (ResNonneg r) := by
  unfold ResNonneg; infer_instance

/-- No inventory count of any agent and no resource count of any tile of the
world is below zero. -/
def WorldNonneg (w : World) : Prop :=
  (∀ a ∈ w.agents, InvNonneg a.inventory) ∧
  (∀ row ∈ w.map, ∀ t ∈ row, ResNonneg t.resources)

instance (w : World) : Decidable (WorldNonneg w) := by
  unfold WorldNonneg; infer_instance

/-- Whether a `SimOp` is guaranteed not to (re)bind the snapshot key `eid`:
either it is a world mutation, or it logs an event with a different id. -/
def opAvoids (eid : String) : SimOp → Bool
  | .mutate _ => true
  | .log e => e.id ≠ eid

/-- An adult agent fixture; fields are overridden per scenario below. -/
def baseAgent : Agent :=
  { id := "a", name := "a", gender := .male, age := 30, status := .adult,
    happiness := 50, memory := [], relationships := [],
    inventory := zeroInventory, mealsEaten := 0, lastMealTick := -1,
    starving := false, alive := true, pregnancy := none,
    locX := 0, locY := 0, visibilityRadius := 3 }

/-- An empty world fixture carrying a given agent list. -/
def mkWorld (agents : List Agent) : World :=
  { map := [], agents := agents, droppedItems := [], weather := .sun,
    time := 0, dayNightIsDay := true }

/-- Sender fixture for the determinism counterexample. -/
def senderC1 : Agent := { baseAgent with id := "s", name := "s" }

/-- Recipient fixture for the determinism counterexample. -/
def recipC1 : Agent := { baseAgent with id := "t", name := "t", locY := 1 }

/-- World fixture for the determinism counterexample. -/
def worldC1 : World := mkWorld [senderC1, recipC1]

/-- Communicate call fixture for the determinism counterexample. -/
def callC1 : CommunicateToolCall := ⟨"s", "hi", ["t"]⟩

/-- Giver fixture (zero inventory) for the negative-amount counterexample. -/
def giverC2 : Agent := { baseAgent with id := "g", name := "g" }

/-- Receiver fixture (zero inventory) for the negative-amount counterexample. -/
def recvC2 : Agent := { baseAgent with id := "r", name := "r" }

/-- World fixture for the negative-amount counterexample. -/
def worldC2 : World := mkWorld [giverC2, recvC2]

/-- A `give_resource` call with a negative amount; the resolver does not
validate the sign. -/
def callC2 : GiveResourceToolCall := ⟨"g", "r", .wood, -1⟩

/-- Giver fixture with five wood for the relationship-delta check. -/
def giverC9 : Agent := { baseAgent with
  id := "g", name := "g", inventory := ⟨5, 0, 0, 0, 0⟩ }

/-- Receiver fixture for the relationship-delta check. -/
def recvC9 : Agent := { baseAgent with id := "r", name := "r" }

/-- World fixture for the relationship-delta check. -/
def worldC9 : World := mkWorld [giverC9, recvC9]

/-- A well-formed `give_resource` call: both agents present, positive amount,
sufficient inventory. -/
def callC9 : GiveResourceToolCall := ⟨"g", "r", .wood, 2⟩

/-- An adult female who is already starving, has no food and has eaten no
meals: at an end-of-day tick the nutrition phase kills her. -/
def femaleC7 : Agent := { baseAgent with
  id := "f", name := "f", gender := .female, starving := true }

/-- An alive adult male co-located with `femaleC7`. -/
def maleC7 : Agent := { baseAgent with id := "m", name := "m" }

/-- Configuration fixture (the demo defaults of generate-demo.ts). -/
def cfgFix : SimulationConfig :=
  { tickDurationMs := 10, mapSize := 10, childDuration := 2160,
    pregnancyDuration := 216, cropGrowthTime := 72, cropWateringRequired := 3,
    agentMovePerTick := 1, mealsPerDay := 3, visibilityRadius := 3, seed := 42 }

/-- A mature, watered, unharvested crop field fixture. -/
def cropFix : CropField := ⟨"cf", 0, 0, 10, 3, 82, false⟩

/-- A grass tile holding `cropFix`. -/
def cropTile : Tile := ⟨0, 0, 0, .grass, ⟨none, none, none, none, none⟩, some cropFix, none⟩

/-- A one-tile world with `baseAgent` standing on `cropTile`. -/
def worldCrop : World := ⟨[[cropTile]], [baseAgent], [], .sun, 82, true⟩

/-! ## Claim theorems -/

/-- C1: two engine runs with identical config, seed, initial world and decision
source do NOT always produce identical final World states: `handleCommunicate`
stamps agent memory with `chat_${Date.now()}_${Math.random()...}` ids, so the
resulting World depends on the unseeded, wall-clock fresh-id source (the same
holds for `handleBuild` structure ids).  Two runs at different instants give
different id streams and hence different Worlds. -/
theorem communicate_depends_on_unseeded_ids :
    handleCommunicate worldC1 callC1 (fun _ => "chat_1000_aaa") ≠
      handleCommunicate worldC1 callC1 (fun _ => "chat_2000_bbb") := by
  decide

/-- C2 counterexample: `handleGiveResource` does not validate the amount's
sign; giving `-1` wood from a zero inventory passes the sufficiency guard and
drives the receiver's wood count to `-1`, so a resolver application to a
non-negative world can produce a negative inventory count. -/
theorem negative_give_breaks_nonnegativity :
    WorldNonneg worldC2 ∧ ¬ WorldNonneg (handleGiveResource worldC2 callC2) := by
  decide

/-- C7 counterexample: the procreation block never consults the agent's
`alive` flag.  An adult female who is already starving and underfed dies in
the nutrition phase of a tick at time 23, and in that same tick's procreation
phase still begins a pregnancy with the co-located adult male. -/
theorem procreation_ignores_alive_flag :
    ((procreationPhase cfgFix 23 "p" (nutritionPhase femaleC7 23 3 "d").1
        [femaleC7, maleC7]).1.alive = false) ∧
    ((procreationPhase cfgFix 23 "p" (nutritionPhase femaleC7 23 3 "d").1
        [femaleC7, maleC7]).1.pregnancy = some ⟨23, 216, "m"⟩) := by
  decide

/-- C9: evaluating a successful `give_resource` at a concrete input.  The
amount moves (5 wood becomes 3 and 2) and happiness rises by 3 on both sides,
but each party's relationship value toward the other is `0`, not `+3`: the
source invokes the four-parameter `updateRelationshipEvent(agent, otherId,
otherName, eventType)` with only three arguments, so `eventType` is
`undefined`, the delta table matches nothing, and the regenerated note even
names the partner `give`. -/
theorem give_resource_relationship_delta_is_zero :
    ((handleGiveResource worldC9 callC9).agents.find? (fun a => a.id = "g")) =
      some { giverC9 with
        inventory := ⟨3, 0, 0, 0, 0⟩, happiness := 53,
        relationships := [⟨"r", "trust", 0, "Neutral feelings about give"⟩] } ∧
    ((handleGiveResource worldC9 callC9).agents.find? (fun a => a.id = "r")) =
      some { recvC9 with
        inventory := ⟨2, 0, 0, 0, 0⟩, happiness := 53,
        relationships := [⟨"g", "trust", 0, "Neutral feelings about give"⟩] } := by
  decide

/-- C10: an agent that eats on the first tick of a day (`time % 24 == 0`) has
its `mealsEaten` counter reset to `0` after the meal within the same tick —
the meal never counts toward the day's requirement even though one food was
consumed and `lastMealTick` was recorded. -/
theorem first_tick_meal_is_not_counted
    (a : Agent) (time mealsPerDay : Int) (eid : String)
    (h0 : Int.tmod time 24 = 0) (hf : 0 < a.inventory.food)
    (hl : a.lastMealTick ≠ time) :
    (nutritionPhase a time mealsPerDay eid).1.mealsEaten = 0 ∧
    (nutritionPhase a time mealsPerDay eid).1.inventory.food = a.inventory.food - 1 ∧
    (nutritionPhase a time mealsPerDay eid).1.lastMealTick = time := by
  simp [nutritionPhase, h0, hf, hl]

/-- Witness for `first_tick_meal_is_not_counted`: an agent with two food and
one meal already counted, eating at tick 24. -/
theorem first_tick_meal_is_not_counted_witness :
    Int.tmod (24 : Int) 24 = 0 ∧
    (nutritionPhase { baseAgent with
        inventory := ⟨0, 0, 0, 2, 0⟩, mealsEaten := 1 } 24 3 "e").1.mealsEaten = 0 :=
  ⟨by decide,
   (first_tick_meal_is_not_counted { baseAgent with
      inventory := ⟨0, 0, 0, 2, 0⟩, mealsEaten := 1 } 24 3 "e"
      (by decide) (by decide) (by decide)).1⟩

/-- C4: an alive agent with no food and no meals eaten that reaches an
end-of-day tick (`time % 24 == 23`) under `mealsPerDay = 3` while not yet
starving becomes `starving = true`, stays alive and triggers no event; an
alive agent reaching an end-of-day tick still under the meal requirement
while already `starving = true` has `alive` set to `false` and a `death` event
with reason `starvation` logged. -/
theorem starvation_marks_then_kills :
    (∀ (a : Agent) (time : Int) (eid : String),
      a.alive = true → a.starving = false → a.inventory.food = 0 →
      a.mealsEaten = 0 → Int.tmod time 24 = 23 →
      (nutritionPhase a time 3 eid).1.starving = true ∧
      (nutritionPhase a time 3 eid).1.alive = true ∧
      (nutritionPhase a time 3 eid).2 = []) ∧
    (∀ (a : Agent) (time : Int) (eid : String),
      a.alive = true → a.starving = true → a.inventory.food = 0 →
      a.mealsEaten < 3 → Int.tmod time 24 = 23 →
      (nutritionPhase a time 3 eid).1.alive = false ∧
      (nutritionPhase a time 3 eid).2 =
        [⟨eid, "death", time, [a.id],
          [("reason", "starvation"), ("mealsEaten", toString a.mealsEaten)], none⟩]) := by
  constructor
  · intro a time eid ha hs hf hm h23
    simp [nutritionPhase, ha, hs, hf, hm, h23]
  · intro a time eid ha hs hf hm h23
    have hm' : ¬ (3 : Int) ≤ a.mealsEaten := by omega
    simp [nutritionPhase, ha, hs, hf, hm, hm', h23]

/-- Witness for `starvation_marks_then_kills`: a fresh agent at tick 23
becomes starving and stays alive; a starving agent at tick 47 dies with a
starvation death event. -/
theorem starvation_marks_then_kills_witness :
    Int.tmod (23 : Int) 24 = 23 ∧
    (nutritionPhase baseAgent 23 3 "e1").1.starving = true ∧
    (nutritionPhase { baseAgent with starving := true } 47 3 "e2").1.alive = false :=
  ⟨by decide,
   (starvation_marks_then_kills.1 baseAgent 23 "e1"
      (by decide) (by decide) (by decide) (by decide) (by decide)).1,
   ((starvation_marks_then_kills.2 { baseAgent with starving := true } 47 "e2"
      (by decide) (by decide) (by decide) (by decide) (by decide)).1)⟩

/-- `setTileAt` never touches the agent list. -/
theorem setTileAt_agents (w : World) (x y : Int) (t : Tile) :
    (setTileAt w x y t).agents = w.agents := by
  unfold setTileAt
  split
  · rfl
  · split <;> rfl

/-- A successful optional index is in bounds. -/
theorem getElem?_some_lt_length {α : Type} (l : List α) (n : Nat) (a : α)
    (h : l[n]? = some a) : n < l.length := by
  by_contra hn
  push_neg at hn
  rw [List.getElem?_eq_none hn] at h
  exact Option.noConfusion h

/-- Writing a tile at an address that holds one makes `tileAt` read it back. -/
theorem tileAt_setTileAt_self (w : World) (x y : Int) (t0 t : Tile)
    (h : tileAt w x y = some t0) :
    tileAt (setTileAt w x y t) x y = some t := by
  unfold tileAt at h ⊢
  unfold setTileAt
  by_cases hc : y < 0 ∨ x < 0
  · simp [hc] at h
  · simp only [if_neg hc, List.get?_eq_getElem?] at h ⊢
    revert h
    cases hrow : w.map[y.toNat]? with
    | none => intro h; exact Option.noConfusion h
    | some row =>
      intro h
      dsimp only at h ⊢
      have hy : y.toNat < w.map.length := getElem?_some_lt_length _ _ _ hrow
      have hx : x.toNat < row.length := getElem?_some_lt_length _ _ _ h
      rw [List.getElem?_set_eq_of_lt _ hy]
      dsimp only
      rw [List.getElem?_set_eq_of_lt _ hx]

/-- `find?` by id through a map that rewrites the matching agents with an
id-preserving function. -/
theorem find?_map_update (l : List Agent) (aid : String) (g : Agent → Agent)
    (hg : ∀ a, (g a).id = a.id) :
    (l.map (fun a => if a.id = aid then g a else a)).find? (fun a => a.id = aid)
      = (l.find? (fun a => a.id = aid)).map g := by
  induction l with
  | nil => rfl
  | cons a as ih =>
    by_cases h : a.id = aid
    · simp [h, hg a]
    · simp [h, hg a, ih]

/-- `tileAt` ignores the agent list. -/
theorem tileAt_with_agents (w : World) (ags : List Agent) (x y : Int) :
    tileAt { w with agents := ags } x y = tileAt w x y := rfl

/-- C3: harvesting is gated on maturity and watering.  Before
`tick ≥ matureTick` or before `watered ≥ cropWateringRequired` the resolver
returns the world unchanged (so the harvested flag and every food inventory
stay as they were); once both hold it marks the field harvested and adds two
food to the harvesting agent's inventory. -/
theorem crop_maturity_gate :
    (∀ (w : World) (c : HarvestCropToolCall) (tick req : Int)
        (tile : Tile) (field : CropField),
      tileAt w c.locX c.locY = some tile → tile.cropField = some field →
      field.harvested = false →
      (tick < field.matureTick ∨ field.watered < req) →
      handleHarvestCrop w c tick req = w) ∧
    (∀ (w : World) (c : HarvestCropToolCall) (tick req : Int)
        (tile : Tile) (field : CropField) (ag : Agent),
      tileAt w c.locX c.locY = some tile → tile.cropField = some field →
      field.harvested = false → field.matureTick ≤ tick → req ≤ field.watered →
      w.agents.find? (fun a => a.id = c.agentId) = some ag →
      (tileAt (handleHarvestCrop w c tick req) c.locX c.locY).map (fun t => t.cropField)
        = some (some { field with harvested := true }) ∧
      (handleHarvestCrop w c tick req).agents.find? (fun a => a.id = c.agentId) =
        some { ag with inventory := { ag.inventory with food := ag.inventory.food + 2 } }) := by
  constructor
  · intro w c tick req tile field h1 h2 h3 h4
    simp [handleHarvestCrop, h1, h2, h3, h4]
  · intro w c tick req tile field ag h1 h2 h3 h4 h5 h6
    have hng : ¬ (tick < field.matureTick ∨ field.watered < req) := by omega
    constructor
    · simp only [handleHarvestCrop, h1, h2, h3, if_neg hng, Bool.false_eq_true, if_false]
      rw [tileAt_with_agents]
      rw [tileAt_setTileAt_self w c.locX c.locY tile _ h1]
      rfl
    · simp only [handleHarvestCrop, h1, h2, h3, if_neg hng, Bool.false_eq_true, if_false]
      rw [find?_map_update w.agents c.agentId
            (fun a => { a with inventory := { a.inventory with food := a.inventory.food + 2 } })
            (fun a => rfl), h6]
      rfl

/-- Witness for `crop_maturity_gate`: at tick 50 (before maturity 82) the
harvest is a no-op; at tick 82 with 3 waterings the agent's food rises by 2. -/
theorem crop_maturity_gate_witness :
    handleHarvestCrop worldCrop ⟨"a", 0, 0⟩ 50 3 = worldCrop ∧
    (handleHarvestCrop worldCrop ⟨"a", 0, 0⟩ 82 3).agents.find? (fun a => a.id = "a")
      = some { baseAgent with
          inventory := { baseAgent.inventory with food := baseAgent.inventory.food + 2 } } :=
  ⟨crop_maturity_gate.1 worldCrop ⟨"a", 0, 0⟩ 50 3 cropTile cropFix
      (by decide) (by decide) (by decide) (by decide),
   (crop_maturity_gate.2 worldCrop ⟨"a", 0, 0⟩ 82 3 cropTile cropFix baseAgent
      (by decide) (by decide) (by decide) (by decide) (by decide) (by decide)).2⟩

/-- `getD` on an appended list, index inside the left part. -/
theorem getD_append_lt {α : Type} (l1 l2 : List α) (n : Nat) (d : α)
    (h : n < l1.length) : (l1 ++ l2).getD n d = l1.getD n d := by
  simp [List.getD_eq_getElem?_getD, List.getElem?_append, h]

/-- `getD` on an appended list at the length of the left part. -/
theorem getD_append_len {α : Type} (l1 l2 : List α) (d : α) :
    (l1 ++ l2).getD l1.length d = l2.getD 0 d := by
  simp [List.getD_eq_getElem?_getD, List.getElem?_append]

/-- `getLast?` of a non-empty list is its entry at `length - 1`. -/
theorem getLast?_eq_getD {α : Type} (l : List α) (d : α) (h : l ≠ []) :
    l.getLast? = some (l.getD (l.length - 1) d) := by
  have hl : l.length - 1 < l.length := by
    have : 0 < l.length := List.length_pos.mpr h
    omega
  rw [List.getLast?_eq_getElem?, List.getElem?_eq_getElem hl, List.getD_eq_getElem?_getD,
    List.getElem?_eq_getElem hl]
  rfl

/-- `appendEvent` leaves already-appended events untouched. -/
theorem appendEvent_take (log : List Event) (e : Event) :
    (appendEvent log e).take log.length = log := by
  unfold appendEvent
  exact List.take_left log _

/-- `appendEvent` appends exactly one event. -/
theorem appendEvent_length (log : List Event) (e : Event) :
    (appendEvent log e).length = log.length + 1 := by
  simp [appendEvent]

/-- `buildLog` over a concatenation with a final event. -/
theorem buildLog_concat (subs : List Event) (e : Event) :
    buildLog (subs ++ [e]) = appendEvent (buildLog subs) e := by
  simp [buildLog, List.foldl_append]

/-- `buildLog` preserves length. -/
theorem buildLog_length (subs : List Event) :
    (buildLog subs).length = subs.length := by
  induction subs using List.reverseRecOn with
  | nil => rfl
  | append_singleton s e ih =>
    rw [buildLog_concat, appendEvent_length, ih]
    simp

/-- Chain property of the built log: an event submitted with no parent id is
stored with the previous log entry's id as parent. -/
theorem buildLog_chain (subs : List Event) (i : Nat) (h : i + 1 < subs.length)
    (hu : (subs.getD (i + 1) defaultEvent).parentEventId = none) :
    ((buildLog subs).getD (i + 1) defaultEvent).parentEventId =
      some (((buildLog subs).getD i defaultEvent).id) := by
  induction subs using List.reverseRecOn generalizing i with
  | nil => simp at h
  | append_singleton s e ih =>
    have hlen : (buildLog s).length = s.length := buildLog_length s
    rw [buildLog_concat]
    by_cases hi : i + 1 < s.length
    · have hu' : (s.getD (i + 1) defaultEvent).parentEventId = none := by
        rwa [getD_append_lt s [e] (i + 1) defaultEvent hi] at hu
      unfold appendEvent
      rw [getD_append_lt _ _ (i + 1) defaultEvent (by omega),
          getD_append_lt _ _ i defaultEvent (by omega)]
      exact ih i hi hu'
    · have hieq : i + 1 = s.length := by
        simp [List.length_append] at h
        omega
    -- the new entry: its parent becomes the last previous entry's id
      have hse : (s ++ [e]).getD (i + 1) defaultEvent = e := by
        rw [hieq, getD_append_len]
        rfl
      have hue : parentUnset e = true := by
        rw [hse] at hu
        simp [parentUnset, hu]
      have hne : buildLog s ≠ [] := by
        intro hnil
        rw [hnil] at hlen
        simp at hlen
        omega
      unfold appendEvent
      rw [hue, getLast?_eq_getD (buildLog s) defaultEvent hne]
      simp only [if_true]
      rw [show i + 1 = (buildLog s).length by omega]
      rw [getD_append_len, getD_append_lt _ _ i defaultEvent (by omega)]
      have : (buildLog s).length - 1 = i := by omega
      rw [this]
      rfl

/-- Genesis property: the first submitted event, when submitted with no
parent id, is stored with no parent id. -/
theorem buildLog_genesis (subs : List Event) (h0 : subs ≠ [])
    (hu : (subs.getD 0 defaultEvent).parentEventId = none) :
    ((buildLog subs).getD 0 defaultEvent).parentEventId = none := by
  induction subs using List.reverseRecOn with
  | nil => exact absurd rfl h0
  | append_singleton s e ih =>
    rw [buildLog_concat]
    rcases List.eq_nil_or_concat s with hs | ⟨s', e', rfl⟩
    · subst hs
      have hu' : e.parentEventId = none := by simpa using hu
      simp [buildLog, appendEvent, parentUnset, hu']
    · simp only [List.concat_eq_append] at ih h0 hu ⊢
      have hlen : 0 < (s' ++ [e']).length := by simp
      have hlenb : 0 < (buildLog (s' ++ [e'])).length := by
        rw [buildLog_length]
        exact hlen
      have hu' : ((s' ++ [e']).getD 0 defaultEvent).parentEventId = none := by
        rwa [getD_append_lt _ _ 0 defaultEvent hlen] at hu
      have hstep : (appendEvent (buildLog (s' ++ [e'])) e).getD 0 defaultEvent
          = (buildLog (s' ++ [e'])).getD 0 defaultEvent :=
        getD_append_lt _ _ 0 defaultEvent hlenb
      rw [hstep]
      exact ih (by simp) hu'

/-- C5: for every log produced through `logEvent`, an event at position
`i > 0` submitted with an unset parent id is stored pointing at the previous
entry's id; the first event submitted with an unset parent id keeps it unset;
and appending never mutates the events already in the log. -/
theorem event_log_causal_chain :
    (∀ (log : List Event) (e : Event),
      (appendEvent log e).take log.length = log ∧
      (appendEvent log e).length = log.length + 1) ∧
    (∀ (subs : List Event) (i : Nat), i + 1 < subs.length →
      (subs.getD (i + 1) defaultEvent).parentEventId = none →
      ((buildLog subs).getD (i + 1) defaultEvent).parentEventId =
        some (((buildLog subs).getD i defaultEvent).id)) ∧
    (∀ subs : List Event, subs ≠ [] →
      (subs.getD 0 defaultEvent).parentEventId = none →
      ((buildLog subs).getD 0 defaultEvent).parentEventId = none) :=
  ⟨fun log e => ⟨appendEvent_take log e, appendEvent_length log e⟩,
   buildLog_chain, buildLog_genesis⟩

/-- Witness for `event_log_causal_chain`: a two-event log submitted with unset
parents chains the second event to the first and keeps the genesis parent
unset. -/
theorem event_log_causal_chain_witness :
    ((buildLog [⟨"e1", "move", 0, [], [], none⟩, ⟨"e2", "move", 0, [], [], none⟩]).getD 1
        defaultEvent).parentEventId = some "e1" ∧
    ((buildLog [⟨"e1", "move", 0, [], [], none⟩, ⟨"e2", "move", 0, [], [], none⟩]).getD 0
        defaultEvent).parentEventId = none := by
  constructor
  · have := event_log_causal_chain.2.1
      [⟨"e1", "move", 0, [], [], none⟩, ⟨"e2", "move", 0, [], [], none⟩] 0
      (by decide) (by decide)
    rw [this]
    decide
  · exact event_log_causal_chain.2.2
      [⟨"e1", "move", 0, [], [], none⟩, ⟨"e2", "move", 0, [], [], none⟩]
      (by decide) (by decide)

/-- `logEvent` stores the current world under the logged event's id. -/
theorem lookup_logEventS_self (st : SimState) (e : Event) :
    lookupSnapshot (logEventS st e).snapshots e.id = some st.world := by
  simp [logEventS, lookupSnapshot]

/-- Later operations that avoid a snapshot key leave its binding observable. -/
theorem lookup_applySimOps (st : SimState) (ops : List SimOp) (eid : String)
    (h : ∀ op ∈ ops, opAvoids eid op = true) :
    lookupSnapshot (applySimOps st ops).snapshots eid =
      lookupSnapshot st.snapshots eid := by
  induction ops generalizing st with
  | nil => rfl
  | cons op rest ih =>
    have hrest : ∀ op' ∈ rest, opAvoids eid op' = true :=
      fun op' h' => h op' (List.mem_cons_of_mem _ h')
    have hop : opAvoids eid op = true := h op (List.mem_cons_self _ _)
    cases op with
    | mutate w =>
      show lookupSnapshot (applySimOps { st with world := w } rest).snapshots eid = _
      rw [ih _ hrest]
    | log e2 =>
      have hne : (e2.id = eid) = False := by
        simp [opAvoids] at hop
        simp [hop]
      show lookupSnapshot (applySimOps (logEventS st e2) rest).snapshots eid = _
      rw [ih _ hrest]
      simp [logEventS, lookupSnapshot, List.find?, hne]

/-- C6: after `logEvent(e)` and any later run segment whose logged events all
carry ids other than `e.id`, `jumpTo(e.id)` restores exactly the world that
was current when `logEvent(e)` returned, and leaves the event log untouched
(no truncation). -/
theorem snapshot_round_trip
    (st : SimState) (e : Event) (ops : List SimOp)
    (h : ∀ op ∈ ops, opAvoids e.id op = true) :
    (jumpToEvent (applySimOps (logEventS st e) ops) e.id).world = st.world ∧
    (jumpToEvent (applySimOps (logEventS st e) ops) e.id).eventLog =
      (applySimOps (logEventS st e) ops).eventLog := by
  constructor
  · unfold jumpToEvent stepToEvent
    rw [lookup_applySimOps _ _ _ h, lookup_logEventS_self]
  · unfold jumpToEvent stepToEvent
    split <;> rfl

/-- Witness for `snapshot_round_trip`: log `ev1`, mutate the world, log `ev2`,
then jump back to `ev1`. -/
theorem snapshot_round_trip_witness :
    (jumpToEvent
      (applySimOps (logEventS ⟨mkWorld [], [], []⟩ ⟨"ev1", "god_message", 0, [], [], none⟩)
        [.mutate (mkWorld [baseAgent]), .log ⟨"ev2", "move", 1, [], [], none⟩])
      "ev1").world = mkWorld [] :=
  (snapshot_round_trip ⟨mkWorld [], [], []⟩ ⟨"ev1", "god_message", 0, [], [], none⟩
    [.mutate (mkWorld [baseAgent]), .log ⟨"ev2", "move", 1, [], [], none⟩]
    (by decide)).1

/-- C7 (amended): in the procreation block a pregnancy is begun exactly when
the agent (as it stands after the nutrition block, its `alive` flag not
consulted) is a non-pregnant adult female for which the agent list holds a
co-located non-pregnant adult male (his `alive` flag not consulted either);
the record starts now, runs for the configured `pregnancyDuration`, names the
first such male, and a `procreate` event naming both is logged.  Otherwise the
agent and the event list are untouched. -/
theorem procreation_begins_iff
    (cfg : SimulationConfig) (time : Int) (eid : String)
    (a : Agent) (agents : List Agent) :
    (∀ (p : Agent) (rest : List Agent),
      a.status = .adult → a.pregnancy = none → a.gender = .female →
      agents.filter (isPartnerFor a) = p :: rest →
      (procreationPhase cfg time eid a agents).1 =
        { a with pregnancy := some ⟨time, cfg.pregnancyDuration, p.id⟩ } ∧
      (procreationPhase cfg time eid a agents).2 =
        [⟨eid, "procreate", time, [a.id, p.id], [], none⟩]) ∧
    (¬ (a.status = .adult ∧ a.pregnancy = none ∧ a.gender = .female ∧
        agents.filter (isPartnerFor a) ≠ []) →
      (procreationPhase cfg time eid a agents).1 = a ∧
      (procreationPhase cfg time eid a agents).2 = []) := by
  constructor
  · intro p rest h1 h2 h3 hf
    simp [procreationPhase, h1, h2, h3, hf]
  · intro hn
    by_cases hc : a.status = .adult ∧ a.pregnancy = none ∧ a.gender = .female
    · have hfil : agents.filter (isPartnerFor a) = [] := by
        by_contra hne
        exact hn ⟨hc.1, hc.2.1, hc.2.2, hne⟩
      simp [procreationPhase, hc.1, hc.2.1, hc.2.2, hfil]
    · simp only [procreationPhase]
      rw [if_neg hc]
      exact ⟨rfl, rfl⟩

/-- Witness for `procreation_begins_iff`: an adult female with a co-located
adult male begins a pregnancy with the configured duration and his id. -/
theorem procreation_begins_iff_witness :
    (procreationPhase cfgFix 5 "p"
        { baseAgent with id := "f2", gender := .female } [maleC7]).1 =
      { baseAgent with
        id := "f2", gender := .female, pregnancy := some ⟨5, 216, "m"⟩ } :=
  ((procreation_begins_iff cfgFix 5 "p"
      { baseAgent with id := "f2", gender := .female } [maleC7]).1 maleC7 []
      (by decide) (by decide) (by decide) (by decide)).1

/-- `tickAgent` never changes the identity and survival bookkeeping fields. -/
theorem tickAgent_fields (a : Agent) (cd ea : Int) (r : ℚ) :
    (tickAgent a cd ea r).id = a.id ∧
    (tickAgent a cd ea r).inventory = a.inventory ∧
    (tickAgent a cd ea r).starving = a.starving ∧
    (tickAgent a cd ea r).mealsEaten = a.mealsEaten ∧
    (tickAgent a cd ea r).lastMealTick = a.lastMealTick ∧
    (tickAgent a cd ea r).locX = a.locX ∧
    (tickAgent a cd ea r).locY = a.locY := by
  unfold tickAgent
  split <;> exact ⟨rfl, rfl, rfl, rfl, rfl, rfl, rfl⟩

/-- The nutrition block leaves the inventory alone when there is no food to
eat. -/
theorem nutritionPhase_inventory_no_food (a : Agent) (t m : Int) (e : String)
    (h : a.inventory.food ≤ 0) :
    (nutritionPhase a t m e).1.inventory = a.inventory := by
  have h1 : ¬ (0 < a.inventory.food ∧ a.lastMealTick ≠ t) := by
    intro hcon
    omega
  simp [nutritionPhase, if_neg h1, apply_ite (fun z : Agent => z.inventory)]

/-- The nutrition block kills a starving, underfed agent at an end-of-day
tick and does not touch its inventory. -/
theorem nutritionPhase_starving_death (a : Agent) (t m : Int) (e : String)
    (hs : a.starving = true) (hf : a.inventory.food = 0)
    (hm : a.mealsEaten < m) (h23 : Int.tmod t 24 = 23) :
    (nutritionPhase a t m e).1.alive = false ∧
    (nutritionPhase a t m e).1.inventory = a.inventory := by
  have hm' : ¬ m ≤ a.mealsEaten := by omega
  simp [nutritionPhase, hs, hf, hm, hm', h23]

/-- The procreation block only ever writes the pregnancy field. -/
theorem procreationPhase_fields (cfg : SimulationConfig) (t : Int) (e : String)
    (a : Agent) (ags : List Agent) :
    (procreationPhase cfg t e a ags).1.inventory = a.inventory ∧
    (procreationPhase cfg t e a ags).1.alive = a.alive := by
  unfold procreationPhase
  split
  · split <;> exact ⟨rfl, rfl⟩
  · exact ⟨rfl, rfl⟩

/-- The birth block only ever clears the pregnancy field of the mother. -/
theorem birthPhase_fields (t : Int) (cid e : String) (g : ℚ) (a : Agent) :
    (birthPhase t cid e g a).1.inventory = a.inventory ∧
    (birthPhase t cid e g a).1.alive = a.alive := by
  unfold birthPhase
  split
  · split <;> exact ⟨rfl, rfl⟩
  · exact ⟨rfl, rfl⟩

/-- The lifecycle block on an agent that dies this tick holding items: zeroed
inventory, one pile, and a `resource_drop` event. -/
theorem lifecyclePhase_dead_drop (cfg : SimulationConfig) (time : Int)
    (ids : Nat → String) (r : ℚ) (a : Agent)
    (ha : a.alive = true)
    (hd : (tickAgent a cfg.childDuration (cfg.childDuration + 2000) r).alive = false)
    (hinv : invHasItems (tickAgent a cfg.childDuration (cfg.childDuration + 2000) r).inventory) :
    (lifecyclePhase cfg time ids r a).1 =
      { tickAgent a cfg.childDuration (cfg.childDuration + 2000) r with
        inventory := zeroInventory } ∧
    (lifecyclePhase cfg time ids r a).2.2 =
      [⟨(tickAgent a cfg.childDuration (cfg.childDuration + 2000) r).locX,
        (tickAgent a cfg.childDuration (cfg.childDuration + 2000) r).locY,
        (tickAgent a cfg.childDuration (cfg.childDuration + 2000) r).inventory⟩] ∧
    (⟨ids 1, "resource_drop", time,
        [(tickAgent a cfg.childDuration (cfg.childDuration + 2000) r).id], [], none⟩ : Event)
      ∈ (lifecyclePhase cfg time ids r a).2.1 := by
  unfold lifecyclePhase
  simp only [ha, hd, true_and, if_pos trivial, if_pos hinv]
  exact List.mem_append_left _ (List.mem_append_right _ (List.mem_singleton.mpr rfl))

/-- The lifecycle block on an agent that survives aging: unchanged except for
`tickAgent`, and nothing dropped. -/
theorem lifecyclePhase_alive (cfg : SimulationConfig) (time : Int)
    (ids : Nat → String) (r : ℚ) (a : Agent)
    (hal : (tickAgent a cfg.childDuration (cfg.childDuration + 2000) r).alive = true) :
    (lifecyclePhase cfg time ids r a).1 =
      tickAgent a cfg.childDuration (cfg.childDuration + 2000) r ∧
    (lifecyclePhase cfg time ids r a).2.2 = [] := by
  unfold lifecyclePhase
  have hcond : ¬ (a.alive = true ∧
      (tickAgent a cfg.childDuration (cfg.childDuration + 2000) r).alive = false) := by
    intro hcon
    rw [hal] at hcon
    exact Bool.noConfusion hcon.2
  simp [if_neg hcond]

/-- C8 (amended): during a tick, only an agent whose `alive` flag becomes
false in the aging step (elder mortality) has its inventory dropped: if it
holds any positive count, the whole inventory becomes a world item pile at
its location, a `resource_drop` event is logged, and the inventory is zeroed
for the rest of the tick.  An agent whose `alive` flag becomes false in the
nutrition step (starvation) drops nothing: it leaves the tick dead with its
inventory intact. -/
theorem death_inventory_disposition
    (cfg : SimulationConfig) (time : Int) (ids : Nat → String) (r g : ℚ)
    (agents : List Agent) (a : Agent) :
    (a.alive = true →
      (tickAgent a cfg.childDuration (cfg.childDuration + 2000) r).alive = false →
      invHasItems (tickAgent a cfg.childDuration (cfg.childDuration + 2000) r).inventory →
      (agentTickStep cfg time ids r g agents a).dropped =
        [⟨(tickAgent a cfg.childDuration (cfg.childDuration + 2000) r).locX,
          (tickAgent a cfg.childDuration (cfg.childDuration + 2000) r).locY,
          (tickAgent a cfg.childDuration (cfg.childDuration + 2000) r).inventory⟩] ∧
      (∃ ev ∈ (agentTickStep cfg time ids r g agents a).events,
        ev.type = "resource_drop" ∧ ev.agentsInvolved = [a.id]) ∧
      (agentTickStep cfg time ids r g agents a).agent.inventory = zeroInventory) ∧
    (a.alive = true →
      (tickAgent a cfg.childDuration (cfg.childDuration + 2000) r).alive = true →
      Int.tmod time 24 = 23 → a.starving = true → a.inventory.food = 0 →
      a.mealsEaten < cfg.mealsPerDay →
      (agentTickStep cfg time ids r g agents a).agent.alive = false ∧
      (agentTickStep cfg time ids r g agents a).dropped = [] ∧
      (agentTickStep cfg time ids r g agents a).agent.inventory = a.inventory) := by
  constructor
  · intro ha hd hinv
    obtain ⟨hl1, hl2, hl3⟩ := lifecyclePhase_dead_drop cfg time ids r a ha hd hinv
    refine ⟨?_, ?_, ?_⟩
    · show (lifecyclePhase cfg time ids r a).2.2 = _
      exact hl2
    · refine ⟨⟨ids 1, "resource_drop", time,
          [(tickAgent a cfg.childDuration (cfg.childDuration + 2000) r).id], [], none⟩,
        ?_, rfl, ?_⟩
      · exact List.mem_append_left _ (List.mem_append_left _ (List.mem_append_left _ hl3))
      · rw [(tickAgent_fields a cfg.childDuration (cfg.childDuration + 2000) r).1]
    · show (birthPhase time (ids 5) (ids 6) g
          (procreationPhase cfg time (ids 4)
            (nutritionPhase (lifecyclePhase cfg time ids r a).1 time cfg.mealsPerDay
              (ids 3)).1 agents).1).1.inventory = zeroInventory
      rw [(birthPhase_fields _ _ _ _ _).1, (procreationPhase_fields _ _ _ _ _).1, hl1]
      rw [nutritionPhase_inventory_no_food _ _ _ _ (le_refl 0)]
  · intro ha hal h23 hs hf hm
    obtain ⟨hl1, hl2⟩ := lifecyclePhase_alive cfg time ids r a hal
    obtain ⟨hid, hinv', hst, hme, hlm, hx, hy⟩ :=
      tickAgent_fields a cfg.childDuration (cfg.childDuration + 2000) r
    have hs' : (tickAgent a cfg.childDuration (cfg.childDuration + 2000) r).starving = true := by
      rw [hst, hs]
    have hf' : (tickAgent a cfg.childDuration (cfg.childDuration + 2000) r).inventory.food = 0 := by
      rw [hinv', hf]
    have hm' : (tickAgent a cfg.childDuration (cfg.childDuration + 2000) r).mealsEaten
        < cfg.mealsPerDay := by
      rw [hme]
      exact hm
    have hnd := nutritionPhase_starving_death
      (tickAgent a cfg.childDuration (cfg.childDuration + 2000) r) time cfg.mealsPerDay
      (ids 3) hs' hf' hm' h23
    refine ⟨?_, ?_, ?_⟩
    · show (birthPhase time (ids 5) (ids 6) g
          (procreationPhase cfg time (ids 4)
            (nutritionPhase (lifecyclePhase cfg time ids r a).1 time cfg.mealsPerDay
              (ids 3)).1 agents).1).1.alive = false
      rw [(birthPhase_fields _ _ _ _ _).2, (procreationPhase_fields _ _ _ _ _).2, hl1, hnd.1]
    · show (lifecyclePhase cfg time ids r a).2.2 = _
      exact hl2
    · show (birthPhase time (ids 5) (ids 6) g
          (procreationPhase cfg time (ids 4)
            (nutritionPhase (lifecyclePhase cfg time ids r a).1 time cfg.mealsPerDay
              (ids 3)).1 agents).1).1.inventory = a.inventory
      rw [(birthPhase_fields _ _ _ _ _).1, (procreationPhase_fields _ _ _ _ _).1, hl1, hnd.2,
        hinv']

/-- Witness for `death_inventory_disposition`: a dying elder holding one wood
drops the pile; a starving adult dying at tick 23 drops nothing. -/
theorem death_inventory_disposition_witness :
    (agentTickStep cfgFix 10 (fun _ => "x") 0 0 [] { baseAgent with
        age := 5000, status := .elder, inventory := ⟨1, 0, 0, 0, 0⟩ }).dropped
      = [⟨0, 0, ⟨1, 0, 0, 0, 0⟩⟩] ∧
    (agentTickStep cfgFix 23 (fun _ => "x") 1 0 [] { baseAgent with
        starving := true, inventory := ⟨2, 0, 0, 0, 0⟩ }).dropped = [] :=
  ⟨(((death_inventory_disposition cfgFix 10 (fun _ => "x") 0 0 [] { baseAgent with
        age := 5000, status := .elder, inventory := ⟨1, 0, 0, 0, 0⟩ }).1
      (by decide) (by norm_num [tickAgent, baseAgent, cfgFix]; decide) (by decide)).1).trans (by decide),
   ((death_inventory_disposition cfgFix 23 (fun _ => "x") 1 0 [] { baseAgent with
        starving := true, inventory := ⟨2, 0, 0, 0, 0⟩ }).2
      (by decide) (by norm_num [tickAgent, baseAgent, cfgFix]) (by decide) (by decide)
      (by decide) (by decide)).2.1⟩

/-- Reading any field of a non-negative inventory gives a non-negative count. -/
theorem InvNonneg_get {i : Inventory} (h : InvNonneg i) (res : ResourceType) :
    0 ≤ i.get res := by
  obtain ⟨h1, h2, h3, h4, h5⟩ := h
  cases res <;> assumption

/-- Writing a non-negative count keeps an inventory non-negative. -/
theorem InvNonneg_set {i : Inventory} (h : InvNonneg i) {v : Int} (hv : 0 ≤ v)
    (res : ResourceType) : InvNonneg (i.set res v) := by
  obtain ⟨h1, h2, h3, h4, h5⟩ := h
  cases res <;> exact ⟨by assumption, by assumption, by assumption, by assumption, by assumption⟩

/-- A present count of non-negative tile resources is non-negative. -/
theorem ResNonneg_get {r : TileResources} (h : ResNonneg r) {res : ResourceType} {v : Int}
    (hv : r.get res = some v) : 0 ≤ v := by
  obtain ⟨h1, h2, h3, h4, h5⟩ := h
  cases res <;> simp [TileResources.get] at hv <;>
    first
    | (rw [hv] at h1; exact h1)
    | (rw [hv] at h2; exact h2)
    | (rw [hv] at h3; exact h3)
    | (rw [hv] at h4; exact h4)
    | (rw [hv] at h5; exact h5)

/-- Deleting a key keeps tile resources non-negative. -/
theorem ResNonneg_set_none {r : TileResources} (h : ResNonneg r) (res : ResourceType) :
    ResNonneg (r.set res none) := by
  obtain ⟨h1, h2, h3, h4, h5⟩ := h
  cases res <;>
    exact ⟨by first | trivial | assumption, by first | trivial | assumption,
      by first | trivial | assumption, by first | trivial | assumption,
      by first | trivial | assumption⟩

/-- Writing a non-negative count keeps tile resources non-negative. -/
theorem ResNonneg_set_some {r : TileResources} (h : ResNonneg r) {v : Int} (hv : 0 ≤ v)
    (res : ResourceType) : ResNonneg (r.set res (some v)) := by
  obtain ⟨h1, h2, h3, h4, h5⟩ := h
  cases res <;>
    exact ⟨by first | exact hv | assumption, by first | exact hv | assumption,
      by first | exact hv | assumption, by first | exact hv | assumption,
      by first | exact hv | assumption⟩

/-- A tile read through `tileAt` belongs to a row of the grid. -/
theorem tileAt_mem {w : World} {x y : Int} {t : Tile} (h : tileAt w x y = some t) :
    ∃ row ∈ w.map, t ∈ row := by
  unfold tileAt at h
  by_cases hc : y < 0 ∨ x < 0
  · simp [hc] at h
  · simp only [if_neg hc] at h
    revert h
    cases hrow : w.map.get? y.toNat with
    | none => intro h; exact Option.noConfusion h
    | some row =>
      intro h
      exact ⟨row, List.get?_mem hrow, List.get?_mem h⟩

/-- Replacing a tile with non-negative resources keeps every tile of the grid
non-negative. -/
theorem setTileAt_tiles {w : World} {x y : Int} {t : Tile}
    (hw : ∀ row ∈ w.map, ∀ tl ∈ row, ResNonneg tl.resources)
    (ht : ResNonneg t.resources) :
    ∀ row ∈ (setTileAt w x y t).map, ∀ tl ∈ row, ResNonneg tl.resources := by
  unfold setTileAt
  split
  · exact hw
  · split
    · exact hw
    · rename_i row hrow
      intro row' hrow' tl htl
      rcases List.mem_or_eq_of_mem_set hrow' with hmem | rfl
      · exact hw row' hmem tl htl
      · rcases List.mem_or_eq_of_mem_set htl with hmem | rfl
        · exact hw row (List.get?_mem hrow) tl hmem
        · exact ht

/-- Elements of `updateFirst p f l` come from `l` or are `f` applied to the
first `p`-match of `l`. -/
theorem mem_updateFirst {l : List Agent} {p : Agent → Bool} {f : Agent → Agent} {x : Agent}
    (hx : x ∈ updateFirst p f l) :
    x ∈ l ∨ ∃ a, l.find? p = some a ∧ x = f a := by
  induction l with
  | nil => exact absurd hx (List.not_mem_nil x)
  | cons a as ih =>
    unfold updateFirst at hx
    by_cases hpa : p a
    · rw [if_pos hpa] at hx
      rcases List.mem_cons.mp hx with h | h
      · right
        exact ⟨a, List.find?_cons_of_pos _ hpa, h⟩
      · left
        exact List.mem_cons_of_mem _ h
    · rw [if_neg hpa] at hx
      rcases List.mem_cons.mp hx with h | h
      · left
        exact h ▸ List.mem_cons_self _ _
      · rcases ih h with h' | ⟨b, hb, hx'⟩
        · left
          exact List.mem_cons_of_mem _ h'
        · right
          refine ⟨b, ?_, hx'⟩
          rw [List.find?_cons_of_neg _ hpa]
          exact hb

/-- Relationship updates never touch the inventory. -/
theorem updateRelationshipEvent_inventory (a : Agent) (x y : String) (e : Option String) :
    (updateRelationshipEvent a x y e).inventory = a.inventory := rfl

/-- Happiness updates never touch the inventory. -/
theorem updateHappinessEvent_inventory (a : Agent) (e : String) :
    (updateHappinessEvent a e).inventory = a.inventory := rfl


/-- C2 (amended): on a world whose agent and tile counts are all non-negative,
`handleGather`, `handleCraft`, `handleBuild`, and `handleGiveResource` with a
non-negative amount keep every count non-negative, and each resolver whose
sufficiency guard fails returns the world unchanged.  (With a negative give
amount the guard passes vacuously and the receiver can go negative.) -/
theorem resolvers_preserve_nonnegativity (w : World) (hw : WorldNonneg w) :
    (∀ c : GatherToolCall, WorldNonneg (handleGather w c)) ∧
    (∀ c : CraftToolCall, WorldNonneg (handleCraft w c)) ∧
    (∀ (c : BuildToolCall) (sid : String), WorldNonneg (handleBuild w c sid)) ∧
    (∀ c : GiveResourceToolCall, 0 ≤ c.amount → WorldNonneg (handleGiveResource w c)) ∧
    (∀ (c : GatherToolCall) (tile : Tile), tileAt w c.locX c.locY = some tile →
      (tile.resources.get c.resource = none ∨ tile.resources.get c.resource = some 0) →
      handleGather w c = w) ∧
    (∀ (c : CraftToolCall) (ag : Agent),
      w.agents.find? (fun a => a.id = c.agentId) = some ag →
      ¬ ((RECIPES c.recipe).1.all (fun rn => rn.2 ≤ ag.inventory.get rn.1) = true) →
      handleCraft w c = w) ∧
    (∀ (c : BuildToolCall) (sid : String) (ag : Agent) (tile : Tile)
        (recipe : List (ResourceType × Int)),
      w.agents.find? (fun a => a.id = c.agentId) = some ag →
      tileAt w c.locX c.locY = some tile →
      STRUCTURE_RECIPES c.structureType = some recipe →
      ¬ (recipe.all (fun rn => rn.2 ≤ ag.inventory.get rn.1) = true) →
      handleBuild w c sid = w) ∧
    (∀ (c : GiveResourceToolCall) (fromA toA : Agent),
      w.agents.find? (fun a => a.id = c.fromAgentId) = some fromA →
      w.agents.find? (fun a => a.id = c.toAgentId) = some toA →
      fromA.inventory.get c.resource < c.amount →
      handleGiveResource w c = w) := by
  refine ⟨?_, ?_, ?_, ?_, ?_, ?_, ?_, ?_⟩
  · -- handleGather preserves non-negativity
    intro c
    unfold handleGather
    cases htile : tileAt w c.locX c.locY with
    | none => exact hw
    | some tile =>
      dsimp only
      cases hres : tile.resources.get c.resource with
      | none => exact hw
      | some v =>
        dsimp only
        by_cases hv : v = 0
        · rw [if_pos hv]
          exact hw
        · rw [if_neg hv]
          obtain ⟨row, hrowmem, htmem⟩ := tileAt_mem htile
          have htres : ResNonneg tile.resources := hw.2 row hrowmem tile htmem
          have hv0 : 0 ≤ v := ResNonneg_get htres hres
          refine ⟨?_, ?_⟩
          · intro x hx
            rcases List.mem_map.mp hx with ⟨a, ha, rfl⟩
            by_cases hid : a.id = c.agentId
            · simp only [if_pos hid]
              exact InvNonneg_set (hw.1 a ha)
                (by have := InvNonneg_get (hw.1 a ha) c.resource; omega) c.resource
            · simp only [if_neg hid]
              exact hw.1 a ha
          · apply setTileAt_tiles hw.2
            show ResNonneg ((if v - 1 ≤ 0 then tile.resources.set c.resource none
              else tile.resources.set c.resource (some (v - 1))))
            by_cases hle : v - 1 ≤ 0
            · rw [if_pos hle]
              exact ResNonneg_set_none htres c.resource
            · rw [if_neg hle]
              exact ResNonneg_set_some htres (by omega) c.resource
  · -- handleCraft preserves non-negativity
    intro c
    unfold handleCraft
    cases hfind : w.agents.find? (fun a => a.id = c.agentId) with
    | none => exact hw
    | some agent =>
      dsimp only
      by_cases halive : agent.alive = false
      · rw [if_pos halive]
        exact hw
      · rw [if_neg halive]
        by_cases hall : (RECIPES c.recipe).1.all
            (fun rn => rn.2 ≤ agent.inventory.get rn.1) = true
        · rw [if_pos hall]
          have hag : InvNonneg agent.inventory :=
            hw.1 agent (List.mem_of_find?_eq_some hfind)
          have hupd : InvNonneg ((RECIPES c.recipe).2.foldl
              (fun inv rn => inv.set rn.1 (inv.get rn.1 + rn.2))
              ((RECIPES c.recipe).1.foldl
                (fun inv rn => inv.set rn.1 (inv.get rn.1 - rn.2)) agent.inventory)) := by
            obtain ⟨a1, a2, a3, a4, a5⟩ := hag
            cases hr : c.recipe <;>
              rw [hr] at hall <;>
              simp [RECIPES, Inventory.get, Inventory.set, InvNonneg] at hall ⊢ <;>
              omega
          refine ⟨?_, hw.2⟩
          intro x hx
          rcases List.mem_map.mp hx with ⟨a, ha, rfl⟩
          by_cases hid : a.id = agent.id
          · simp only [if_pos hid]
            exact hupd
          · simp only [if_neg hid]
            exact hw.1 a ha
        · rw [if_neg hall]
          exact hw
  · -- handleBuild preserves non-negativity
    intro c sid
    unfold handleBuild
    cases hfind : w.agents.find? (fun a => a.id = c.agentId) with
    | none => exact hw
    | some agent =>
      cases htile : tileAt w c.locX c.locY with
      | none => exact hw
      | some tile =>
        dsimp only
        by_cases halive : agent.alive = false
        · rw [if_pos halive]
          exact hw
        · rw [if_neg halive]
          by_cases hstruct : tile.structure'.isSome = true
          · rw [if_pos hstruct]
            exact hw
          · rw [if_neg hstruct]
            cases hrec : STRUCTURE_RECIPES c.structureType with
            | none => exact hw
            | some recipe =>
              dsimp only
              by_cases hall : recipe.all
                  (fun rn => rn.2 ≤ agent.inventory.get rn.1) = true
              · rw [if_pos hall]
                have hag : InvNonneg agent.inventory :=
                  hw.1 agent (List.mem_of_find?_eq_some hfind)
                have hcases : recipe = [(.wood, 10), (.stone, 5)] ∨ recipe = [(.wood, 3)] ∨
                    recipe = [(.wood, 5), (.stone, 2)] ∨ recipe = [(.wood, 8)] := by
                  unfold STRUCTURE_RECIPES at hrec
                  split_ifs at hrec
                  · exact Or.inl (Option.some.inj hrec).symm
                  · exact Or.inr (Or.inl (Option.some.inj hrec).symm)
                  · exact Or.inr (Or.inr (Or.inl (Option.some.inj hrec).symm))
                  · exact Or.inr (Or.inr (Or.inr (Option.some.inj hrec).symm))
                have hupd : InvNonneg (recipe.foldl
                    (fun inv rn => inv.set rn.1 (inv.get rn.1 - rn.2)) agent.inventory) := by
                  obtain ⟨a1, a2, a3, a4, a5⟩ := hag
                  rcases hcases with rfl | rfl | rfl | rfl <;>
                    simp [Inventory.get, Inventory.set, InvNonneg] at hall ⊢ <;>
                    omega
                refine ⟨?_, ?_⟩
                · intro x hx
                  rcases List.mem_map.mp hx with ⟨a, ha, rfl⟩
                  by_cases hid : a.id = agent.id
                  · simp only [if_pos hid]
                    exact hupd
                  · simp only [if_neg hid]
                    exact hw.1 a ha
                · apply setTileAt_tiles hw.2
                  obtain ⟨row, hrowmem, htmem⟩ := tileAt_mem htile
                  exact hw.2 row hrowmem tile htmem
              · rw [if_neg hall]
                exact hw
  · -- handleGiveResource with a non-negative amount preserves non-negativity
    intro c hamt
    unfold handleGiveResource
    cases hfrom : w.agents.find? (fun a => a.id = c.fromAgentId) with
    | none => exact hw
    | some fromA =>
      cases hto : w.agents.find? (fun a => a.id = c.toAgentId) with
      | none => exact hw
      | some toA =>
        dsimp only
        by_cases hlt : fromA.inventory.get c.resource < c.amount
        · rw [if_pos hlt]
          exact hw
        · rw [if_neg hlt]
          have hfromnn : InvNonneg fromA.inventory :=
            hw.1 fromA (List.mem_of_find?_eq_some hfrom)
          have hdec : InvNonneg
              (fromA.inventory.set c.resource
                (fromA.inventory.get c.resource - c.amount)) :=
            InvNonneg_set hfromnn (by omega) c.resource
          refine ⟨?_, hw.2⟩
          intro x hx
          rcases List.mem_map.mp hx with ⟨a, ha, rfl⟩
          have hphi : ∀ b : Agent,
              ((if b.id = fromA.id then
                  updateHappinessEvent (updateRelationshipEvent b toA.id "give" none) "give"
                else if b.id = toA.id then
                  updateHappinessEvent (updateRelationshipEvent b fromA.id "give" none) "give"
                else b)).inventory = b.inventory := by
            intro b
            by_cases hb1 : b.id = fromA.id
            · rw [if_pos hb1]
              rfl
            · rw [if_neg hb1]
              by_cases hb2 : b.id = toA.id
              · rw [if_pos hb2]
                rfl
              · rw [if_neg hb2]
          simp only [hphi]
          have hannA : ∀ b : Agent,
              b ∈ updateFirst (fun a => a.id = c.fromAgentId)
                (fun a => { a with inventory := a.inventory.set c.resource (a.inventory.get c.resource - c.amount) })
                w.agents →
              InvNonneg b.inventory := by
            intro b hb
            rcases mem_updateFirst hb with hmem | ⟨b', hbfind, rfl⟩
            · exact hw.1 b hmem
            · rw [hfrom] at hbfind
              injection hbfind with hb'
              subst hb'
              exact hdec
          rcases mem_updateFirst ha with hmem | ⟨b, hbfind, rfl⟩
          · exact hannA a hmem
          · have hbnn : InvNonneg b.inventory :=
              hannA b (List.mem_of_find?_eq_some hbfind)
            exact InvNonneg_set hbnn
              (by have := InvNonneg_get hbnn c.resource; omega) c.resource
  · -- handleGather with an absent or zero tile count is a no-op
    intro c tile htile hres
    unfold handleGather
    rcases hres with hres | hres <;> simp [htile, hres]
  · -- handleCraft with insufficient ingredients is a no-op
    intro c ag hfind hall
    unfold handleCraft
    rw [hfind]
    dsimp only
    by_cases halive : ag.alive = false
    · rw [if_pos halive]
    · rw [if_neg halive, if_neg hall]
  · -- handleBuild with insufficient resources is a no-op
    intro c sid ag tile recipe hfind htile hrec hall
    unfold handleBuild
    rw [hfind, htile]
    dsimp only
    by_cases halive : ag.alive = false
    · rw [if_pos halive]
    · rw [if_neg halive]
      by_cases hstruct : tile.structure'.isSome = true
      · rw [if_pos hstruct]
      · rw [if_neg hstruct, hrec]
        dsimp only
        rw [if_neg hall]
  · -- handleGiveResource with an insufficient giver is a no-op
    intro c fromA toA hfrom hto hlt
    unfold handleGiveResource
    rw [hfrom, hto]
    dsimp only
    rw [if_pos hlt]

/-- Witness for `resolvers_preserve_nonnegativity`: a concrete non-negative
world stays non-negative under a sufficient give, and gathering from a tile
without the resource is a no-op. -/
theorem resolvers_preserve_nonnegativity_witness :
    WorldNonneg worldC9 ∧
    WorldNonneg (handleGiveResource worldC9 callC9) ∧
    handleGather worldCrop ⟨"a", ResourceType.wood, 0, 0⟩ = worldCrop :=
  ⟨by decide,
   (resolvers_preserve_nonnegativity worldC9 (by decide)).2.2.2.1 callC9 (by decide),
   (resolvers_preserve_nonnegativity worldCrop (by decide)).2.2.2.2.1
     ⟨"a", ResourceType.wood, 0, 0⟩ cropTile (by decide) (Or.inl (by decide))⟩

/-- C8 counterexample: an adult holding two wood who is already starving and
underfed dies at the end-of-day tick 23, yet the tick drops no item pile and
its inventory is neither dropped nor zeroed — contradicting the claim that
every agent whose `alive` flag becomes false during a tick has its non-zero
inventory dropped and then zeroed. -/
theorem starvation_death_drops_nothing :
    (agentTickStep cfgFix 23 (fun _ => "x") 0 0 []
      { baseAgent with starving := true, inventory := ⟨2, 0, 0, 0, 0⟩ }).agent.alive = false ∧
    (agentTickStep cfgFix 23 (fun _ => "x") 0 0 []
      { baseAgent with starving := true, inventory := ⟨2, 0, 0, 0, 0⟩ }).dropped = [] ∧
    (agentTickStep cfgFix 23 (fun _ => "x") 0 0 []
      { baseAgent with starving := true, inventory := ⟨2, 0, 0, 0, 0⟩ }).agent.inventory
      = ⟨2, 0, 0, 0, 0⟩ := by
  decide
